import Mathlib

/-!
Shallow embedding of the CSolver client (`main.go`)

The Go package `CSolver` is a client of a captcha-solving web API.  Its four
methods (`Balance`, `FetchResult`, `HCaptcha`, `Recaptcha3`) are embedded here as
pure functions over an explicit world state.

* The HTTP transport (`s.session`) is an environment `Env`: the `i`-th call made
  on the transport receives `env.reply i`, either a transport error or a response.
* Every call on the transport and every `time.Sleep` is appended to a trace.
* `float64` values are exact rationals; the clock counts seconds and moves only
  in `time.Sleep`, by the requested interval (a non-positive interval returns at
  once).  The wall-clock time a request takes and the conversion of the interval
  to whole nanoseconds are not modelled, so the statements below speak of runs
  in which the timeout check of `FetchResult` passes, and none bounds the elapsed
  time or the number of polls of a run that ends by timeout.
* A Go run-time panic is an outcome of its own, distinct from a returned error.
* The unbounded `for` loop of `FetchResult` takes fuel; `none` means that the
  fuel ran out before the loop returned.
-/

namespace CSolver

/-! ## Values, outcomes, world -/

/-- JSON document, as a parser delivers it. -/
inductive JSON where
  | null
  | bool (b : Bool)
  | number (q : ℚ)
  | string (s : String)
  | array (xs : List JSON)
  | object (kvs : List (String × JSON))

/-- Go `interface{}` value.  The dynamic types are the ones `encoding/json` stores
into an `interface{}` plus `int`, the type `FetchResult` asserts.  Elements of
slices and maps are kept in JSON form. -/
inductive GoAny where
  | nil
  | int (n : ℤ)
  | float64 (x : ℚ)
  | string (s : String)
  | bool (b : Bool)
  | slice (xs : List JSON)
  | map (kvs : List (String × JSON))

/-- Result of a Go function returning `(α, error)`: either it returns, with an
error when `err` is `some`, or it panics. -/
inductive Outcome (α : Type) where
  | ret (val : α) (err : Option String)
  | panic (msg : String)
  deriving DecidableEq

/-- Body of a POST: a string written by hand, or `json.Marshal` of a
`map[string]interface{}` of `*string` values (keys in sorted order, a nil pointer
is `none`). -/
inductive Payload where
  | text (s : String)
  | marshal (m : List (String × Option String))
  deriving DecidableEq

/-- One observable action of the client. -/
inductive Event where
  | post (url contentType : String) (body : Payload)
  | get (url : String)
  | doReq (method url : String) (headers : List (String × String))
  | sleep (seconds : ℚ)
  deriving DecidableEq

/-- Fields of `*http.Response` the client reads.  `JSON` is the body as a JSON
document (`none` when the body is not one); `Query` is `url.ParseQuery` of
`resp.Request.URL.RawQuery`, `URL` is `resp.Request.URL.String()`. -/
structure Response where
  StatusCode : Nat
  Body : String
  JSON : Option JSON
  URL : String
  Query : List (String × List String)

/-- What a call on the transport gives back: `err != nil`, or a response. -/
inductive Reply where
  | error (msg : String)
  | resp (r : Response)

/-- Environment: the reply to the `i`-th call on the transport, and whether
`http.NewRequest` accepts a URL. -/
structure Env where
  reply : Nat → Reply
  validURL : String → Bool

/-- World state: the clock (seconds), the number of calls made on the transport,
and the trace of events. -/
structure World where
  clock : ℚ
  sent : Nat
  trace : List Event

/-- Record a call on the transport. -/
def World.send (w : World) (e : Event) : World :=
  { w with sent := w.sent + 1, trace := w.trace ++ [e] }

/-- Effect of `time.Sleep`: a non-positive duration returns immediately. -/
def World.sleep (w : World) (d : ℚ) : World :=
  { w with clock := w.clock + max d 0, trace := w.trace ++ [Event.sleep d] }

def BASE : String := "https://api.csolver.xyz/"

structure Solver where
  apiKey : String
  jobSleep : ℚ

/-! ## `encoding/json`: decoding into the three anonymous structs -/

/-- Case folding of one rune as the decoder does for field names: ASCII letters,
plus the two non-ASCII runes that fold to an ASCII letter. -/
def foldRune (c : Char) : Char :=
  if c = 'ſ' then 'S' else if c = 'K' then 'K' else c.toUpper

/-- An object key is bound to the struct field tagged `name` when both are equal
up to case folding. -/
def keyMatches (name key : String) : Bool :=
  key.data.map foldRune == name.data.map foldRune

/-- Value stored into an `interface{}` field. -/
def toAny : JSON → GoAny
  | .null => .nil
  | .bool b => .bool b
  | .number q => .float64 q
  | .string s => .string s
  | .array xs => .slice xs
  | .object kvs => .map kvs

def typeError : String := "json: cannot unmarshal value into Go struct field"

/-- Decode into `struct { JobID interface{} }` with tag `job_id`.  Members are
processed in order, each matching member overwrites the field. -/
def decodeJobID : Option JSON → Except String GoAny
  | none => .error "invalid character"
  | some (.object kvs) =>
      .ok (kvs.foldl (fun acc kv => if keyMatches "job_id" kv.1 then toAny kv.2 else acc) .nil)
  | some .null => .ok .nil
  | some _ => .error typeError

/-- Store a JSON value into a `string` field: `null` leaves it, a non-string is a
type error (decoding goes on, the first error is reported at the end). -/
def storeString (cur : String × Option String) : JSON → String × Option String
  | .string s => (s, cur.2)
  | .null => cur
  | _ => (cur.1, cur.2.orElse (fun _ => some typeError))

structure ResultData where
  Status : String
  Solution : String
  deriving DecidableEq

/-- Value of the `string` field tagged `name` after decoding the members `kvs`. -/
def decodeStringField (name : String) (kvs : List (String × JSON)) : String × Option String :=
  kvs.foldl (fun acc kv => if keyMatches name kv.1 then storeString acc kv.2 else acc) ("", none)

/-- Decode into `struct { Status string; Solution string }`. -/
def decodeData : Option JSON → Except String ResultData
  | none => .error "invalid character"
  | some (.object kvs) =>
      match decodeStringField "status" kvs, decodeStringField "solution" kvs with
      | (st, none), (sol, none) => .ok ⟨st, sol⟩
      | (_, some e), _ => .error e
      | _, (_, some e) => .error e
  | some .null => .ok ⟨"", ""⟩
  | some _ => .error typeError

/-- Store a JSON value into a `float64` field. -/
def storeFloat (cur : ℚ × Option String) : JSON → ℚ × Option String
  | .number q => (q, cur.2)
  | .null => cur
  | _ => (cur.1, cur.2.orElse (fun _ => some typeError))

/-- Decode into `struct { Bal float64 }` with tag `bal`. -/
def decodeBal : Option JSON → Except String ℚ
  | none => .error "invalid character"
  | some (.object kvs) =>
      match kvs.foldl (fun acc kv => if keyMatches "bal" kv.1 then storeFloat acc kv.2 else acc)
          ((0 : ℚ), (none : Option String)) with
      | (b, none) => .ok b
      | (_, some e) => .error e
  | some .null => .ok 0
  | some _ => .error typeError

/-! ## `Balance` -/

/-- `Solver.Balance`. -/
def Balance (s : Solver) (env : Env) (w : World) : Outcome ℚ × World :=
  let w1 := w.send (.post (BASE ++ "getbal") "application/json"
    (.text ("\x7b\"api_key\":\"" ++ s.apiKey ++ "\"\x7d")))
  match env.reply w.sent with
  | .error e => (.ret 0 (some e), w1)
  | .resp r =>
    if r.StatusCode ≠ 200 then (.ret 0 (some "bad request"), w1)
    else
      match decodeBal r.JSON with
      | .error e => (.ret 0 (some e), w1)
      | .ok bal =>
        if bal < 0.0005 then (.ret 0 (some "no balance"), w1)
        else (.ret bal none, w1)

/-! ## `FetchResult` -/

/-- `strconv.Itoa`. -/
def Itoa (n : ℤ) : String := toString n

/-- The `for` loop of `Solver.FetchResult`; `start` is the clock value recorded by
`time.Now()` before the loop. -/
def fetchLoop (s : Solver) (env : Env) (job : GoAny) (timeout start : ℚ) :
    Nat → World → Option (Outcome String × World)
  | 0, _ => none
  | fuel + 1, w =>
    if w.clock - start > timeout then some (.ret "" (some "timeout"), w)
    else
      match job with
      | .int n =>
        let w1 := w.send (.get (BASE ++ "result/" ++ Itoa n))
        match env.reply w.sent with
        | .error e => some (.ret "" (some e), w1)
        | .resp r =>
          if r.StatusCode ≠ 200 then some (.ret "" none, w1)
          else
            match decodeData r.JSON with
            | .error e => some (.ret "" (some e), w1)
            | .ok data =>
              if data.Status = "completed" then some (.ret data.Solution none, w1)
              else if data.Status = "processing" then
                fetchLoop s env job timeout start fuel (w1.sleep s.jobSleep)
              else if data.Status = "failed" then some (.ret "" none, w1)
              else fetchLoop s env job timeout start fuel w1
      | _ => some (.panic "interface conversion: interface \x7b\x7d is not int", w)

/-- `Solver.FetchResult`. -/
def FetchResult (fuel : Nat) (s : Solver) (env : Env) (job : GoAny) (timeout : ℚ)
    (w : World) : Option (Outcome String × World) :=
  fetchLoop s env job timeout w.clock fuel w

/-! ## `HCaptcha` -/

/-- `Solver.HCaptcha`. -/
def HCaptcha (fuel : Nat) (s : Solver) (env : Env) (task siteKey site : String)
    (proxy rqdata : Option String) (w : World) : Option (Outcome String × World) :=
  if s.apiKey = "" then some (.ret "" (some "API key must be provided"), w)
  else
    let payload : List (String × Option String) :=
      [("proxy", proxy), ("rqdata", rqdata), ("site", some site),
       ("sitekey", some siteKey), ("task", some task)]
    let w1 := w.send (.post (BASE ++ "solve") "application/json" (.marshal payload))
    match env.reply w.sent with
    | .error e => some (.ret "" (some e), w1)
    | .resp r =>
      if r.StatusCode ≠ 200 then some (.ret "" (some "bad request"), w1)
      else
        match decodeJobID r.JSON with
        | .error e => some (.ret "" (some e), w1)
        | .ok jobID =>
          match jobID with
          | .nil => some (.ret "" none, w1)
          | job => FetchResult fuel s env job 30 w1

/-! ## `Recaptcha3` -/

/-- Literal part of the pattern
`type="hidden" id="recaptcha-token" value="([^"]+)"` before the capture group. -/
def tokenPrefix : List Char := "type=\"hidden\" id=\"recaptcha-token\" value=\"".data

/-- Match of the pattern anchored at the start of `s`: the literal, then the
longest non-empty run of characters other than `"`, then `"`.  Gives the text of
the capture group. -/
def matchTokenAt (s : List Char) : Option (List Char) :=
  if tokenPrefix.isPrefixOf s then
    match (s.drop tokenPrefix.length).span (fun c => c != '"') with
    | (v, '"' :: _) => if v = [] then none else some v
    | _ => none
  else none

/-- `regexp.FindStringSubmatch` for the pattern above: the leftmost match and its
capture group, or the empty slice. -/
def FindStringSubmatch : List Char → List String
  | [] => []
  | c :: cs =>
    match matchTokenAt (c :: cs) with
    | some v => [String.mk (tokenPrefix ++ v ++ ['"']), String.mk v]
    | none => FindStringSubmatch cs

/-- `strings.Index`: position of the first occurrence of `sep`. -/
def Index (sep : List Char) : List Char → Option Nat
  | [] => if sep = [] then some 0 else none
  | c :: cs => if sep.isPrefixOf (c :: cs) then some 0 else (Index sep cs).map (· + 1)

/-- Loop of `strings.Split` for a non-empty separator: cut at the first
occurrence, go on after it. -/
def splitLoop (sep : List Char) : Nat → List Char → List (List Char)
  | 0, s => [s]
  | fuel + 1, s =>
    match Index sep s with
    | none => [s]
    | some m => s.take m :: splitLoop sep fuel (s.drop (m + sep.length))

/-- `strings.Split` (separator non-empty). -/
def Split (s sep : String) : List String :=
  (splitLoop sep.data s.data.length s.data).map String.mk

/-- The expression `uv[key]` on `url.Values`: the nil slice when the key is absent. -/
def values (uv : List (String × List String)) (key : String) : List String :=
  (uv.lookup key).getD []

def indexPanic : String := "runtime error: index out of range"

/-- Marker looked for in the reload response. -/
def rrespMarker : String := "[\"rresp\",\""

/-- `Solver.Recaptcha3`.  The line `uv := url.ParseQuery(...)` is read as binding the
parsed values (the error result of `ParseQuery` is not looked at); the `headers`
map is written after the first request and never sent, so it leaves no trace. -/
def Recaptcha3 (_s : Solver) (env : Env) (invisible : Bool) (ua anchor reload : String)
    (w : World) : Outcome String × World :=
  if env.validURL anchor = false then
    (.panic "runtime error: invalid memory address or nil pointer dereference", w)
  else
    let w1 := w.send (.doReq "GET" anchor [("User-Agent", ua)])
    match env.reply w.sent with
    | .error e => (.ret "" (some e), w1)
    | .resp r =>
      if r.StatusCode ≠ 200 then (.ret "" (some "bad request"), w1)
      else
        match FindStringSubmatch r.Body.data with
        | _ :: token :: _ =>
          match values r.Query "v" with
          | [] => (.panic indexPanic, w1)
          | v :: _ =>
            match values r.Query "k" with
            | [] => (.panic indexPanic, w1)
            | k :: _ =>
              match values r.Query "co" with
              | [] => (.panic indexPanic, w1)
              | co :: _ =>
                let data := "v=" ++ v ++ "&reason=q&c=" ++ token ++ "&k=" ++ k ++ "&co=" ++ co
                  ++ "&hl=en&size=" ++ (if invisible then "invisible" else "visible")
                let w2 := w1.send
                  (.post reload "application/x-www-form-urlencoded" (.text data))
                match env.reply w1.sent with
                | .error e => (.ret "" (some e), w2)
                | .resp r2 =>
                  match Split r2.Body rrespMarker with
                  | _ :: seg :: _ =>
                    match Split seg "\"" with
                    | sol :: _ => (.ret sol none, w2)
                    | [] => (.panic indexPanic, w2)
                  | _ => (.panic indexPanic, w2)
        | _ => (.ret "" (some "no token"), w1)

/-! ## Vocabulary of the statements -/

/-- The reply is a 200 OK response whose body decodes to `d`. -/
def isOK (rep : Reply) (d : ResultData) : Prop :=
  ∃ r, rep = .resp r ∧ r.StatusCode = 200 ∧ decodeData r.JSON = .ok d

/-- The reply is a response with a status code other than 200. -/
def isNon200 (rep : Reply) : Prop :=
  ∃ r, rep = .resp r ∧ r.StatusCode ≠ 200

/-- Path polled for the job `n`. -/
def resultURL (n : ℤ) : String := BASE ++ "result/" ++ Itoa n

/-- Trace of `k` polls each answered by `processing`: a GET, then a sleep. -/
def pollTrace (url : String) (d : ℚ) : Nat → List Event
  | 0 => []
  | k + 1 => Event.get url :: Event.sleep d :: pollTrace url d k

/-- A 200 OK response with the given JSON body. -/
def jsonResponse (j : JSON) : Response :=
  { StatusCode := 200, Body := "", JSON := some j, URL := "", Query := [] }

/-- Transport that answers every call with the same JSON document. -/
def constEnv (j : JSON) : Env :=
  { reply := fun _ => .resp (jsonResponse j), validURL := fun _ => true }

/-- Transport that answers the calls with the listed JSON documents, in order,
and fails afterwards. -/
def scriptEnv (js : List JSON) : Env :=
  { reply := fun i => match js.get? i with
      | some j => .resp (jsonResponse j)
      | none => .error "EOF",
    validURL := fun _ => true }

/-- Transport that answers every call with 404 and an empty body. -/
def notFoundEnv : Env :=
  { reply := fun _ => .resp { StatusCode := 404, Body := "", JSON := none, URL := "", Query := [] },
    validURL := fun _ => true }

/-- World before any call. -/
def World.init : World := { clock := 0, sent := 0, trace := [] }

/-- World reached from `w` after `k` polls each answered by `processing`. -/
def World.afterPolls (w : World) (url : String) (d : ℚ) (k : Nat) : World :=
  { clock := w.clock + k * max d 0, sent := w.sent + k, trace := w.trace ++ pollTrace url d k }

/-- JSON body of a result response. -/
def resultJSON (status solution : String) : JSON :=
  .object [("status", .string status), ("solution", .string solution)]

/-- Transport of a handshake: the anchor page `html` reached at a URL whose query
parses to `query`, then the reload response `reload`. -/
def handshakeEnv (html : String) (query : List (String × List String)) (reload : String) : Env :=
  { reply := fun i => match i with
      | 0 => .resp { StatusCode := 200, Body := html, JSON := none, URL := "", Query := query }
      | 1 => .resp { StatusCode := 200, Body := reload, JSON := none, URL := "", Query := [] }
      | _ => .error "EOF",
    validURL := fun _ => true }

/-- Anchor page of the scenario. -/
def anchorHTML : String := "<input type=\"hidden\" id=\"recaptcha-token\" value=\"ANCHORTOK\">"

/-! ## Theorems -/

/-- C1: with an empty API key `HCaptcha` returns the error "API key must be
provided" with an empty solution and leaves the world untouched: no call is made
on the transport, whatever the arguments. -/
theorem hcaptcha_missing_credentials (fuel : Nat) (s : Solver) (env : Env)
    (task siteKey site : String) (proxy rqdata : Option String) (w : World)
    (hkey : s.apiKey = "") :
    HCaptcha fuel s env task siteKey site proxy rqdata w =
      some (.ret "" (some "API key must be provided"), w) := by
  simp [HCaptcha, hkey]

theorem hcaptcha_missing_credentials_witness :
    HCaptcha 5 ⟨"", 1⟩ (constEnv .null) "hCaptchaEnterprise" "SK" "https://example"
        (some "P") (some "R") World.init =
      some (.ret "" (some "API key must be provided"), World.init) ∧
    World.init.trace = [] :=
  ⟨hcaptcha_missing_credentials 5 ⟨"", 1⟩ (constEnv .null) "hCaptchaEnterprise" "SK"
    "https://example" (some "P") (some "R") World.init rfl, rfl⟩

/-- C2: when `/getbal` answers 200 OK with a body that decodes to the balance `b`,
`Balance` returns `(b, nil)` exactly when `b ≥ 0.0005`, and otherwise returns the
error "no balance". -/
theorem balance_threshold (s : Solver) (env : Env) (w : World) (r : Response) (b : ℚ)
    (hreply : env.reply w.sent = .resp r) (hstatus : r.StatusCode = 200)
    (hbal : decodeBal r.JSON = .ok b) :
    ((Balance s env w).1 = .ret b none ↔ b ≥ 0.0005) ∧
    (¬ b ≥ 0.0005 → (Balance s env w).1 = .ret 0 (some "no balance")) := by
  have hthr : b ≥ 0.0005 ↔ ¬ b < 0.0005 := by constructor <;> intro h <;> simpa using h
  by_cases hb : b < 0.0005
  · have hres : (Balance s env w).1 = .ret 0 (some "no balance") := by
      simp [Balance, hreply, hstatus, hbal, hb]
    refine ⟨?_, fun _ => hres⟩
    rw [hres, hthr]
    constructor
    · intro h; cases h
    · intro h; exact absurd hb h
  · have hres : (Balance s env w).1 = .ret b none := by
      simp [Balance, hreply, hstatus, hbal, hb]
    refine ⟨?_, fun h => absurd (hthr.mpr hb) h⟩
    rw [hres, hthr]
    exact ⟨fun _ => hb, fun _ => rfl⟩

theorem decodeBal_single (q : ℚ) : decodeBal (some (.object [("bal", .number q)])) = .ok q := by
  have hk : keyMatches "bal" "bal" = true := by decide
  simp [decodeBal, hk, storeFloat]

theorem balance_threshold_witness :
    (Balance ⟨"key", 1⟩ (constEnv (.object [("bal", .number 1.25)])) World.init).1
        = .ret 1.25 none ∧
    (Balance ⟨"key", 1⟩ (constEnv (.object [("bal", .number 0.0005)])) World.init).1
        = .ret 0.0005 none ∧
    (Balance ⟨"key", 1⟩ (constEnv (.object [("bal", .number 0.0001)])) World.init).1
        = .ret 0 (some "no balance") :=
  ⟨(balance_threshold ⟨"key", 1⟩ (constEnv (.object [("bal", .number 1.25)])) World.init
      (jsonResponse (.object [("bal", .number 1.25)])) 1.25 rfl rfl
      (decodeBal_single 1.25)).1.mpr (by norm_num),
   (balance_threshold ⟨"key", 1⟩ (constEnv (.object [("bal", .number 0.0005)])) World.init
      (jsonResponse (.object [("bal", .number 0.0005)])) 0.0005 rfl rfl
      (decodeBal_single 0.0005)).1.mpr (by norm_num),
   (balance_threshold ⟨"key", 1⟩ (constEnv (.object [("bal", .number 0.0001)])) World.init
      (jsonResponse (.object [("bal", .number 0.0001)])) 0.0001 rfl rfl
      (decodeBal_single 0.0001)).2 (by norm_num)⟩

theorem decodeJobID_nil (kvs : List (String × JSON))
    (hnull : ∀ kv ∈ kvs, keyMatches "job_id" kv.1 = true → kv.2 = .null) :
    decodeJobID (some (.object kvs)) = .ok .nil := by
  have hfold : ∀ (l : List (String × JSON)),
      (∀ kv ∈ l, keyMatches "job_id" kv.1 = true → kv.2 = .null) →
      l.foldl (fun acc kv => if keyMatches "job_id" kv.1 then toAny kv.2 else acc) GoAny.nil
        = GoAny.nil := by
    intro l
    induction l with
    | nil => intro _; rfl
    | cons kv l ih =>
      intro h
      have hl := ih (fun x hx => h x (List.mem_cons_of_mem _ hx))
      by_cases hk : keyMatches "job_id" kv.1 = true
      · have hv := h kv (List.mem_cons_self _ _) hk
        simp only [List.foldl_cons, hk, if_true, hv, toAny]
        exact hl
      · simp only [List.foldl_cons, hk]
        exact hl
  simp only [decodeJobID, hfold kvs hnull]

/-- C3: with a non-empty API key, when `/solve` answers 200 OK with a JSON object
in which every member bound to `job_id` is `null` (in particular when no member
is), `HCaptcha` returns the empty string and no error, and the only call made on
the transport is the POST to `solve`: no GET to `result/...` follows. -/
theorem hcaptcha_no_job_id (fuel : Nat) (s : Solver) (env : Env)
    (task siteKey site : String) (proxy rqdata : Option String) (w : World)
    (r : Response) (kvs : List (String × JSON))
    (hkey : s.apiKey ≠ "")
    (hreply : env.reply w.sent = .resp r) (hstatus : r.StatusCode = 200)
    (hbody : r.JSON = some (.object kvs))
    (hnull : ∀ kv ∈ kvs, keyMatches "job_id" kv.1 = true → kv.2 = .null) :
    HCaptcha fuel s env task siteKey site proxy rqdata w =
      some (.ret "" none,
        { clock := w.clock, sent := w.sent + 1,
          trace := w.trace ++ [Event.post (BASE ++ "solve") "application/json"
            (.marshal [("proxy", proxy), ("rqdata", rqdata), ("site", some site),
              ("sitekey", some siteKey), ("task", some task)])] }) := by
  simp [HCaptcha, hkey, hreply, hstatus, hbody, decodeJobID_nil kvs hnull, World.send]

theorem hcaptcha_no_job_id_witness :
    HCaptcha 5 ⟨"key", 1⟩ (constEnv (.object [("error", .string "rejected"), ("job_id", .null)]))
        "hCaptchaEnterprise" "SK" "https://example" (some "P") none World.init =
      some (.ret "" none,
        { clock := 0, sent := 0 + 1,
          trace := [] ++ [Event.post (BASE ++ "solve") "application/json"
            (.marshal [("proxy", some "P"), ("rqdata", none), ("site", some "https://example"),
              ("sitekey", some "SK"), ("task", some "hCaptchaEnterprise")])] }) :=
  hcaptcha_no_job_id 5 ⟨"key", 1⟩
    (constEnv (.object [("error", .string "rejected"), ("job_id", .null)]))
    "hCaptchaEnterprise" "SK" "https://example" (some "P") none World.init
    (jsonResponse (.object [("error", .string "rejected"), ("job_id", .null)]))
    [("error", .string "rejected"), ("job_id", .null)]
    (by decide) rfl rfl rfl
    (by
      intro kv hkv hk
      simp only [List.mem_cons, List.mem_singleton, List.not_mem_nil, or_false] at hkv
      rcases hkv with rfl | rfl
      · exact absurd hk (by decide)
      · rfl)

/-! ### The polling loop, one iteration at a time -/

theorem fetchLoop_completed (s : Solver) (env : Env) (n : ℤ) (timeout start : ℚ)
    (fuel : Nat) (w : World) (sol : String)
    (htime : w.clock - start ≤ timeout)
    (hrep : isOK (env.reply w.sent) ⟨"completed", sol⟩) :
    fetchLoop s env (.int n) timeout start (fuel + 1) w =
      some (.ret sol none, w.send (.get (resultURL n))) := by
  obtain ⟨r, hr, h200, hdec⟩ := hrep
  simp [fetchLoop, not_lt.mpr htime, hr, h200, hdec, resultURL]

theorem fetchLoop_processing (s : Solver) (env : Env) (n : ℤ) (timeout start : ℚ)
    (fuel : Nat) (w : World) (sol : String)
    (htime : w.clock - start ≤ timeout)
    (hrep : isOK (env.reply w.sent) ⟨"processing", sol⟩) :
    fetchLoop s env (.int n) timeout start (fuel + 1) w =
      fetchLoop s env (.int n) timeout start fuel
        ((w.send (.get (resultURL n))).sleep s.jobSleep) := by
  obtain ⟨r, hr, h200, hdec⟩ := hrep
  have h1 : ¬ ("processing" = "completed") := by decide
  simp [fetchLoop, not_lt.mpr htime, hr, h200, hdec, resultURL, h1]

theorem fetchLoop_stop (s : Solver) (env : Env) (n : ℤ) (timeout start : ℚ)
    (fuel : Nat) (w : World)
    (htime : w.clock - start ≤ timeout)
    (hrep : isNon200 (env.reply w.sent) ∨ ∃ sol, isOK (env.reply w.sent) ⟨"failed", sol⟩) :
    fetchLoop s env (.int n) timeout start (fuel + 1) w =
      some (.ret "" none, w.send (.get (resultURL n))) := by
  rcases hrep with ⟨r, hr, h200⟩ | ⟨sol, r, hr, h200, hdec⟩
  · simp [fetchLoop, not_lt.mpr htime, hr, h200, resultURL]
  · have h1 : ¬ ("failed" = "completed") := by decide
    have h2 : ¬ ("failed" = "processing") := by decide
    simp [fetchLoop, not_lt.mpr htime, hr, h200, hdec, resultURL, h1, h2]

theorem fetchLoop_processing_run (s : Solver) (env : Env) (n : ℤ) (timeout start : ℚ)
    (fuel : Nat) : ∀ (k : Nat) (w : World),
    (∀ i < k, ∃ sol, isOK (env.reply (w.sent + i)) ⟨"processing", sol⟩) →
    (∀ i < k, w.clock + i * max s.jobSleep 0 - start ≤ timeout) →
    fetchLoop s env (.int n) timeout start (fuel + k) w =
      fetchLoop s env (.int n) timeout start fuel (w.afterPolls (resultURL n) s.jobSleep k) := by
  intro k
  induction k with
  | zero =>
    intro w _ _
    simp [World.afterPolls, pollTrace]
  | succ k ih =>
    intro w hproc htime
    obtain ⟨sol, h0⟩ := hproc 0 (Nat.succ_pos k)
    have ht0 : w.clock - start ≤ timeout := by simpa using htime 0 (Nat.succ_pos k)
    have hfuel : fuel + (k + 1) = (fuel + k) + 1 := by omega
    rw [hfuel, fetchLoop_processing s env n timeout start (fuel + k) w sol ht0 (by simpa using h0)]
    rw [ih]
    · congr 1
      simp only [World.afterPolls, World.sleep, World.send, pollTrace, World.mk.injEq]
      refine ⟨?_, ?_, ?_⟩
      · push_cast; ring
      · omega
      · simp
    · intro i hi
      have := hproc (i + 1) (Nat.succ_lt_succ hi)
      simpa [World.sleep, World.send, Nat.add_assoc, Nat.add_comm 1 i] using this
    · intro i hi
      have := htime (i + 1) (Nat.succ_lt_succ hi)
      simp only [World.sleep, World.send]
      push_cast at this
      linarith

theorem count_get_pollTrace (url : String) (d : ℚ) (k : Nat) :
    (pollTrace url d k).count (Event.get url) = k := by
  induction k with
  | zero => rfl
  | succ k ih => simp [pollTrace, ih]

theorem count_sleep_pollTrace (url : String) (d : ℚ) (k : Nat) :
    (pollTrace url d k).count (Event.sleep d) = k := by
  induction k with
  | zero => rfl
  | succ k ih => simp [pollTrace, ih]

theorem length_pollTrace (url : String) (d : ℚ) (k : Nat) :
    (pollTrace url d k).length = 2 * k := by
  induction k with
  | zero => rfl
  | succ k ih => simp [pollTrace, ih]; omega

/-- C5: for an integer job, when the result endpoint answers 200 OK `processing`
to the first `k` polls and 200 OK `completed` with solution `sol` to the next one,
and the `k` sleeps do not carry the clock past the timeout, `FetchResult` returns
`(sol, nil)`; the events it adds are `k` times a GET followed by a sleep of the
poll interval, then one GET: `k + 1` GETs and `k` sleeps in all. -/
theorem fetchResult_completed_after_processing (s : Solver) (env : Env) (n : ℤ)
    (timeout : ℚ) (w : World) (k : Nat) (sol : String) (fuel : Nat)
    (hproc : ∀ i < k, ∃ x, isOK (env.reply (w.sent + i)) ⟨"processing", x⟩)
    (hdone : isOK (env.reply (w.sent + k)) ⟨"completed", sol⟩)
    (htime : k * max s.jobSleep 0 ≤ timeout)
    (hfuel : k + 1 ≤ fuel) :
    FetchResult fuel s env (.int n) timeout w =
      some (.ret sol none,
        { clock := w.clock + k * max s.jobSleep 0, sent := w.sent + k + 1,
          trace := w.trace ++ (pollTrace (resultURL n) s.jobSleep k
            ++ [Event.get (resultURL n)]) }) ∧
    (pollTrace (resultURL n) s.jobSleep k ++ [Event.get (resultURL n)]).count
        (Event.get (resultURL n)) = k + 1 ∧
    (pollTrace (resultURL n) s.jobSleep k ++ [Event.get (resultURL n)]).count
        (Event.sleep s.jobSleep) = k ∧
    (pollTrace (resultURL n) s.jobSleep k ++ [Event.get (resultURL n)]).length
        = (k + 1) + k := by
  have hd : (0 : ℚ) ≤ max s.jobSleep 0 := le_max_right _ _
  refine ⟨?_, ?_, ?_, ?_⟩
  · obtain ⟨f, rfl⟩ : ∃ f, fuel = (f + 1) + k := ⟨fuel - (k + 1), by omega⟩
    unfold FetchResult
    rw [fetchLoop_processing_run s env n timeout w.clock (f + 1) k w hproc]
    · rw [fetchLoop_completed s env n timeout w.clock f _ sol]
      · simp [World.afterPolls, World.send, List.append_assoc]
      · simp only [World.afterPolls]
        linarith
      · simpa [World.afterPolls] using hdone
    · intro i hi
      have hik : (i : ℚ) ≤ k := by exact_mod_cast hi.le
      have := mul_le_mul_of_nonneg_right hik hd
      linarith
  · simp [List.count_append, count_get_pollTrace]
  · simp [List.count_append, count_sleep_pollTrace]
  · simp [length_pollTrace]; omega

theorem decodeData_resultJSON (st sol : String) :
    decodeData (some (resultJSON st sol)) = .ok ⟨st, sol⟩ := by
  have h1 : keyMatches "status" "status" = true := by decide
  have h2 : keyMatches "status" "solution" = false := by decide
  have h3 : keyMatches "solution" "status" = false := by decide
  have h4 : keyMatches "solution" "solution" = true := by decide
  simp [decodeData, resultJSON, decodeStringField, h1, h2, h3, h4, storeString]

theorem decodeData_status_only (st : String) :
    decodeData (some (.object [("status", .string st)])) = .ok ⟨st, ""⟩ := by
  have h1 : keyMatches "status" "status" = true := by decide
  have h3 : keyMatches "solution" "status" = false := by decide
  simp [decodeData, decodeStringField, h1, h3, storeString]

theorem fetchResult_completed_after_processing_witness :
    FetchResult 3 ⟨"key", 0.01⟩
        (scriptEnv [resultJSON "processing" "", resultJSON "processing" "",
          resultJSON "completed" "TOKEN_XYZ"])
        (.int 42) 30 World.init =
      some (.ret "TOKEN_XYZ" none,
        { clock := (0 : ℚ) + (2 : ℕ) * max 0.01 0, sent := 0 + 2 + 1,
          trace := [] ++ (pollTrace (resultURL 42) 0.01 2 ++ [Event.get (resultURL 42)]) }) ∧
    (pollTrace (resultURL 42) 0.01 2 ++ [Event.get (resultURL 42)]).count
        (Event.get (resultURL 42)) = 2 + 1 ∧
    (pollTrace (resultURL 42) 0.01 2 ++ [Event.get (resultURL 42)]).count
        (Event.sleep 0.01) = 2 ∧
    (pollTrace (resultURL 42) 0.01 2 ++ [Event.get (resultURL 42)]).length = (2 + 1) + 2 :=
  fetchResult_completed_after_processing ⟨"key", 0.01⟩
    (scriptEnv [resultJSON "processing" "", resultJSON "processing" "",
      resultJSON "completed" "TOKEN_XYZ"])
    42 30 World.init 2 "TOKEN_XYZ" 3
    (by
      intro i hi
      refine ⟨"", jsonResponse (resultJSON "processing" ""), ?_, rfl, decodeData_resultJSON _ _⟩
      rcases i with _ | _ | i
      · rfl
      · rfl
      · omega)
    ⟨jsonResponse (resultJSON "completed" "TOKEN_XYZ"), rfl, rfl, decodeData_resultJSON _ _⟩
    (by norm_num)
    (by decide)

/-- C6: for an integer job, a poll answered by a status code other than 200, or by
200 OK with status `failed`, ends `FetchResult` with the empty string and no
error, and the GET of that poll is the last event.  First part: at any iteration
of the loop whose timeout check passes.  Second part: for `FetchResult` when the
`k` polls before it were answered by `processing` (with `k = 0`, one poll in
all). -/
theorem fetchResult_stops_on_failed_or_non200 (s : Solver) (env : Env) (n : ℤ)
    (timeout : ℚ) :
    (∀ (start : ℚ) (fuel : Nat) (w : World),
      w.clock - start ≤ timeout →
      (isNon200 (env.reply w.sent) ∨ ∃ x, isOK (env.reply w.sent) ⟨"failed", x⟩) →
      fetchLoop s env (.int n) timeout start (fuel + 1) w =
        some (.ret "" none,
          { clock := w.clock, sent := w.sent + 1,
            trace := w.trace ++ [Event.get (resultURL n)] })) ∧
    (∀ (w : World) (k fuel : Nat),
      (∀ i < k, ∃ x, isOK (env.reply (w.sent + i)) ⟨"processing", x⟩) →
      (isNon200 (env.reply (w.sent + k)) ∨
        ∃ x, isOK (env.reply (w.sent + k)) ⟨"failed", x⟩) →
      k * max s.jobSleep 0 ≤ timeout →
      k + 1 ≤ fuel →
      FetchResult fuel s env (.int n) timeout w =
        some (.ret "" none,
          { clock := w.clock + k * max s.jobSleep 0, sent := w.sent + k + 1,
            trace := w.trace ++ (pollTrace (resultURL n) s.jobSleep k
              ++ [Event.get (resultURL n)]) })) := by
  have hd : (0 : ℚ) ≤ max s.jobSleep 0 := le_max_right _ _
  constructor
  · intro start fuel w htime hrep
    rw [fetchLoop_stop s env n timeout start fuel w htime hrep]
    rfl
  · intro w k fuel hproc hstop htime hfuel
    obtain ⟨f, rfl⟩ : ∃ f, fuel = (f + 1) + k := ⟨fuel - (k + 1), by omega⟩
    unfold FetchResult
    rw [fetchLoop_processing_run s env n timeout w.clock (f + 1) k w hproc]
    · rw [fetchLoop_stop s env n timeout w.clock f _]
      · simp [World.afterPolls, World.send, List.append_assoc]
      · simp only [World.afterPolls]
        linarith
      · simpa [World.afterPolls] using hstop
    · intro i hi
      have hik : (i : ℚ) ≤ k := by exact_mod_cast hi.le
      have := mul_le_mul_of_nonneg_right hik hd
      linarith

theorem fetchResult_stops_on_failed_or_non200_witness :
    FetchResult 1 ⟨"key", 0.01⟩ (scriptEnv [.object [("status", .string "failed")]])
        (.int 7) 30 World.init =
      some (.ret "" none,
        { clock := (0 : ℚ) + (0 : ℕ) * max 0.01 0, sent := 0 + 0 + 1,
          trace := [] ++ (pollTrace (resultURL 7) 0.01 0 ++ [Event.get (resultURL 7)]) }) ∧
    fetchLoop ⟨"key", 0.01⟩ notFoundEnv (.int 7) 30 0 (0 + 1) World.init =
      some (.ret "" none,
        { clock := World.init.clock, sent := World.init.sent + 1,
          trace := World.init.trace ++ [Event.get (resultURL 7)] }) :=
  ⟨(fetchResult_stops_on_failed_or_non200 ⟨"key", 0.01⟩
      (scriptEnv [.object [("status", .string "failed")]]) 7 30).2 World.init 0 1
    (by intro i hi; omega)
    (Or.inr ⟨"", jsonResponse (.object [("status", .string "failed")]), rfl, rfl,
      decodeData_status_only _⟩)
    (by norm_num)
    (by decide),
   (fetchResult_stops_on_failed_or_non200 ⟨"key", 0.01⟩ notFoundEnv 7 30).1 0 0 World.init
    (by norm_num [World.init])
    (Or.inl ⟨_, rfl, by decide⟩)⟩

theorem fetchLoop_unknown (s : Solver) (env : Env) (n : ℤ) (timeout start : ℚ)
    (fuel : Nat) (w : World) (d : ResultData)
    (htime : w.clock - start ≤ timeout)
    (hrep : isOK (env.reply w.sent) d)
    (h1 : d.Status ≠ "completed") (h2 : d.Status ≠ "processing") (h3 : d.Status ≠ "failed") :
    fetchLoop s env (.int n) timeout start (fuel + 1) w =
      fetchLoop s env (.int n) timeout start fuel (w.send (.get (resultURL n))) := by
  obtain ⟨r, hr, h200, hdec⟩ := hrep
  simp [fetchLoop, not_lt.mpr htime, hr, h200, hdec, resultURL, h1, h2, h3]

theorem toAny_ne_int (j : JSON) (n : ℤ) : toAny j ≠ .int n := by
  cases j <;> simp [toAny]

theorem decodeJobID_single (j : JSON) :
    decodeJobID (some (.object [("job_id", j)])) = .ok (toAny j) := by
  have hk : keyMatches "job_id" "job_id" = true := by decide
  simp [decodeJobID, hk]

/-- C4: what the code does with a non-null `job_id`.  The decoder never stores an
`int` into the `interface{}` field, so for the response `{"job_id": 42}` (and for
`{"job_id": "42"}`) the assertion `job.(int)` in `FetchResult` panics: `HCaptcha`
ends in a panic after the POST to `solve`, and no GET to `result/42` is made. -/
theorem hcaptcha_job_id_panics :
    (∀ (j : JSON) (n : ℤ), toAny j ≠ .int n) ∧
    (∀ fuel : Nat,
      HCaptcha (fuel + 1) ⟨"key", 0.01⟩ (constEnv (.object [("job_id", .number 42)]))
          "hCaptchaEnterprise" "SK" "https://example" (some "P") (some "R") World.init =
        some (.panic "interface conversion: interface \x7b\x7d is not int",
          { clock := 0, sent := 1,
            trace := [Event.post (BASE ++ "solve") "application/json"
              (.marshal [("proxy", some "P"), ("rqdata", some "R"),
                ("site", some "https://example"), ("sitekey", some "SK"),
                ("task", some "hCaptchaEnterprise")])] })) ∧
    (∀ fuel : Nat,
      HCaptcha (fuel + 1) ⟨"key", 0.01⟩ (constEnv (.object [("job_id", .string "42")]))
          "hCaptchaEnterprise" "SK" "https://example" (some "P") (some "R") World.init =
        some (.panic "interface conversion: interface \x7b\x7d is not int",
          { clock := 0, sent := 1,
            trace := [Event.post (BASE ++ "solve") "application/json"
              (.marshal [("proxy", some "P"), ("rqdata", some "R"),
                ("site", some "https://example"), ("sitekey", some "SK"),
                ("task", some "hCaptchaEnterprise")])] })) := by
  have hkey : ¬ ("key" = "") := by decide
  refine ⟨toAny_ne_int, ?_, ?_⟩
  · intro fuel
    simp [HCaptcha, hkey, constEnv, jsonResponse, decodeJobID_single, toAny, FetchResult,
      fetchLoop, World.send, World.init]
  · intro fuel
    simp [HCaptcha, hkey, constEnv, jsonResponse, decodeJobID_single, toAny, FetchResult,
      fetchLoop, World.send, World.init]

/-- C7: what the code does with an unknown status.  The `switch` has no case for
it: after 200 OK with status `queued` (or with no status field at all)
`FetchResult` neither fails nor sleeps, it polls again at once; here the second
poll is answered `completed`, and the call returns that solution with no error
after two GETs. -/
theorem fetchResult_unknown_status_polls_again :
    FetchResult 2 ⟨"key", 0.01⟩
        (scriptEnv [.object [("status", .string "queued")], resultJSON "completed" "X"])
        (.int 7) 30 World.init =
      some (.ret "X" none,
        { clock := 0, sent := 2,
          trace := [Event.get (resultURL 7), Event.get (resultURL 7)] }) ∧
    FetchResult 2 ⟨"key", 0.01⟩
        (scriptEnv [.object [], resultJSON "completed" "X"])
        (.int 7) 30 World.init =
      some (.ret "X" none,
        { clock := 0, sent := 2,
          trace := [Event.get (resultURL 7), Event.get (resultURL 7)] }) := by
  have hq1 : ¬ ("queued" = "completed") := by decide
  have hq2 : ¬ ("queued" = "processing") := by decide
  have hq3 : ¬ ("queued" = "failed") := by decide
  have he1 : ¬ ("" = "completed") := by decide
  have he2 : ¬ ("" = "processing") := by decide
  have he3 : ¬ ("" = "failed") := by decide
  have hempty : decodeData (some (.object [])) = .ok ⟨"", ""⟩ := by
    simp [decodeData, decodeStringField]
  constructor
  · unfold FetchResult
    rw [fetchLoop_unknown _ _ 7 30 _ 1 World.init ⟨"queued", ""⟩ (by simp [World.init])
      ⟨jsonResponse (.object [("status", .string "queued")]), rfl, rfl,
        decodeData_status_only _⟩ hq1 hq2 hq3]
    rw [fetchLoop_completed _ _ 7 30 _ 0 _ "X" (by simp [World.init, World.send])
      ⟨jsonResponse (resultJSON "completed" "X"), rfl, rfl, decodeData_resultJSON _ _⟩]
    simp [World.send, World.init]
  · unfold FetchResult
    rw [fetchLoop_unknown _ _ 7 30 _ 1 World.init ⟨"", ""⟩ (by simp [World.init])
      ⟨jsonResponse (.object []), rfl, rfl, hempty⟩ he1 he2 he3]
    rw [fetchLoop_completed _ _ 7 30 _ 0 _ "X" (by simp [World.init, World.send])
      ⟨jsonResponse (resultJSON "completed" "X"), rfl, rfl, decodeData_resultJSON _ _⟩]
    simp [World.send, World.init]

/-! ### Text functions of `Recaptcha3` -/

theorem span_not_quote (v post : List Char) (hv : '"' ∉ v) :
    (v ++ '"' :: post).span (fun c => c != '"') = (v, '"' :: post) := by
  induction v with
  | nil => simp [List.span_eq_take_drop]
  | cons a v ih =>
    have ha : a ≠ '"' := fun h => hv (by simp [h])
    have hv' : '"' ∉ v := fun h => hv (List.mem_cons_of_mem _ h)
    have ih' := ih hv'
    rw [List.span_eq_take_drop] at ih' ⊢
    simp only [Prod.mk.injEq] at ih' ⊢
    simp [List.takeWhile_cons, List.dropWhile_cons, ha, ih'.1, ih'.2]

theorem matchTokenAt_here (v post : List Char) (hne : v ≠ []) (hv : '"' ∉ v) :
    matchTokenAt (tokenPrefix ++ v ++ '"' :: post) = some v := by
  have hpre : tokenPrefix.isPrefixOf (tokenPrefix ++ v ++ '"' :: post) = true := by
    rw [List.isPrefixOf_iff_prefix, List.append_assoc]
    exact List.prefix_append _ _
  have hdrop : (tokenPrefix ++ v ++ '"' :: post).drop tokenPrefix.length = v ++ '"' :: post := by
    rw [List.append_assoc, List.drop_left]
  unfold matchTokenAt
  rw [if_pos hpre, hdrop, span_not_quote v post hv]
  simp [hne]

theorem findStringSubmatch_of_match (s v : List Char) (h : matchTokenAt s = some v) :
    FindStringSubmatch s = [String.mk (tokenPrefix ++ v ++ ['"']), String.mk v] := by
  cases s with
  | nil => simp [matchTokenAt, tokenPrefix] at h
  | cons c cs => simp [FindStringSubmatch, h]

theorem findStringSubmatch_skip (c : Char) (cs : List Char)
    (h : matchTokenAt (c :: cs) = none) :
    FindStringSubmatch (c :: cs) = FindStringSubmatch cs := by
  simp [FindStringSubmatch, h]

theorem findStringSubmatch_leftmost (v post : List Char) (hne : v ≠ []) (hv : '"' ∉ v) :
    ∀ pre : List Char,
      (∀ p < pre.length, matchTokenAt ((pre ++ tokenPrefix ++ v ++ '"' :: post).drop p) = none) →
      FindStringSubmatch (pre ++ tokenPrefix ++ v ++ '"' :: post) =
        [String.mk (tokenPrefix ++ v ++ ['"']), String.mk v] := by
  intro pre
  induction pre with
  | nil =>
    intro _
    exact findStringSubmatch_of_match _ _ (by simpa using matchTokenAt_here v post hne hv)
  | cons a pre ih =>
    intro hfirst
    have hcons : a :: pre ++ tokenPrefix ++ v ++ '"' :: post
        = a :: (pre ++ tokenPrefix ++ v ++ '"' :: post) := by simp
    rw [hcons] at hfirst ⊢
    have h0 := hfirst 0 (by simp)
    rw [List.drop_zero] at h0
    rw [findStringSubmatch_skip _ _ h0]
    apply ih
    intro p hp
    have := hfirst (p + 1) (by simpa using hp)
    simpa using this

theorem index_cons_hit (sep : List Char) (c : Char) (cs : List Char)
    (h : sep.isPrefixOf (c :: cs) = true) : Index sep (c :: cs) = some 0 := by
  show (if sep.isPrefixOf (c :: cs) = true then some 0 else (Index sep cs).map (· + 1)) = some 0
  rw [if_pos h]

theorem index_cons_miss (sep : List Char) (c : Char) (cs : List Char)
    (h : sep.isPrefixOf (c :: cs) = false) :
    Index sep (c :: cs) = (Index sep cs).map (· + 1) := by
  show (if sep.isPrefixOf (c :: cs) = true then some 0 else (Index sep cs).map (· + 1)) = _
  rw [if_neg (by rw [h]; exact Bool.false_ne_true)]

theorem index_first (sep tail : List Char) (hsep : sep ≠ []) :
    ∀ pre : List Char,
      (∀ p < pre.length, sep.isPrefixOf ((pre ++ sep ++ tail).drop p) = false) →
      Index sep (pre ++ sep ++ tail) = some pre.length := by
  intro pre
  induction pre with
  | nil =>
    intro _
    obtain ⟨a, sep', rfl⟩ : ∃ a sep', sep = a :: sep' := by
      cases sep with
      | nil => exact absurd rfl hsep
      | cons a sep' => exact ⟨a, sep', rfl⟩
    have hpre : (a :: sep').isPrefixOf (a :: (sep' ++ tail)) = true := by
      rw [List.isPrefixOf_iff_prefix]
      exact List.prefix_append (a :: sep') tail
    exact index_cons_hit _ _ _ hpre
  | cons b pre ih =>
    intro hfirst
    have hcons : b :: pre ++ sep ++ tail = b :: (pre ++ sep ++ tail) := by simp
    rw [hcons] at hfirst ⊢
    have h0 := hfirst 0 (by simp)
    rw [List.drop_zero] at h0
    have hrest := ih (fun p hp => by
      have := hfirst (p + 1) (by simpa using hp)
      simpa using this)
    rw [index_cons_miss _ _ _ h0, hrest]
    rfl

theorem index_spec (sep : List Char) :
    ∀ (s : List Char) (m : Nat), Index sep s = some m →
      sep.isPrefixOf (s.drop m) = true ∧ ∀ p < m, sep.isPrefixOf (s.drop p) = false := by
  intro s
  induction s with
  | nil =>
    intro m h
    by_cases hsep : sep = []
    · simp [Index, hsep] at h
      subst h
      simp [hsep]
    · simp [Index, hsep] at h
  | cons c cs ih =>
    intro m h
    cases hpre : sep.isPrefixOf (c :: cs) with
    | true =>
      rw [index_cons_hit _ _ _ hpre, Option.some.injEq] at h
      subst h
      exact ⟨by rw [List.drop_zero]; exact hpre, fun p hp => absurd hp (Nat.not_lt_zero p)⟩
    | false =>
      rw [index_cons_miss _ _ _ hpre, Option.map_eq_some'] at h
      obtain ⟨m', hm', rfl⟩ := h
      obtain ⟨h1, h2⟩ := ih m' hm'
      refine ⟨by rw [List.drop_succ_cons]; exact h1, ?_⟩
      intro p hp
      cases p with
      | zero => rw [List.drop_zero]; exact hpre
      | succ p => rw [List.drop_succ_cons]; exact h2 p (by omega)

theorem splitLoop_first (sep pre tail : List Char) (hsep : sep ≠ []) (fuel : Nat)
    (hfirst : ∀ p < pre.length, sep.isPrefixOf ((pre ++ sep ++ tail).drop p) = false) :
    splitLoop sep (fuel + 1) (pre ++ sep ++ tail) = pre :: splitLoop sep fuel tail := by
  have hidx := index_first sep tail hsep pre hfirst
  have htake : (pre ++ sep ++ tail).take pre.length = pre := by
    rw [List.append_assoc, List.take_left]
  have hdrop : (pre ++ sep ++ tail).drop (pre.length + sep.length) = tail := by
    rw [← List.length_append, List.drop_left]
  simp only [splitLoop, hidx, htake, hdrop]

theorem splitLoop_segment (a : Char) (sep' F post : List Char) (ha : a ≠ '"')
    (hnone : ∀ p < F.length, (a :: sep').isPrefixOf ((F ++ '"' :: post).drop p) = false)
    (fuel : Nat) :
    ∃ rest more, splitLoop (a :: sep') fuel (F ++ '"' :: post) = (F ++ '"' :: rest) :: more := by
  cases fuel with
  | zero => exact ⟨post, [], rfl⟩
  | succ fuel =>
    cases hidx : Index (a :: sep') (F ++ '"' :: post) with
    | none => exact ⟨post, [], by simp only [splitLoop, hidx]⟩
    | some m =>
      obtain ⟨hat, _⟩ := index_spec (a :: sep') _ m hidx
      have hm : F.length < m := by
        by_contra hcon
        rcases Nat.lt_or_eq_of_le (not_lt.mp hcon) with hlt | heq
        · rw [hnone m hlt] at hat
          exact Bool.false_ne_true hat
        · rw [heq, List.drop_left] at hat
          simp only [List.isPrefixOf, Bool.and_eq_true, beq_iff_eq] at hat
          exact ha hat.1
      obtain ⟨j, rfl⟩ : ∃ j, m = F.length + (j + 1) := ⟨m - F.length - 1, by omega⟩
      refine ⟨post.take j, splitLoop (a :: sep') fuel
        ((F ++ '"' :: post).drop (F.length + (j + 1) + (a :: sep').length)), ?_⟩
      have htake : (F ++ '"' :: post).take (F.length + (j + 1)) = F ++ '"' :: post.take j := by
        rw [List.take_append]
        rfl
      simp only [splitLoop, hidx, htake]

theorem split_marker (body : String) (pre F post : List Char)
    (hbody : body.data = pre ++ rrespMarker.data ++ F ++ '"' :: post)
    (hfirst : ∀ p < pre.length, rrespMarker.data.isPrefixOf (body.data.drop p) = false)
    (hnone : ∀ p < F.length,
      rrespMarker.data.isPrefixOf ((F ++ '"' :: post).drop p) = false) :
    ∃ rest more, Split body rrespMarker
      = String.mk pre :: String.mk (F ++ '"' :: rest) :: more := by
  have hmarker : rrespMarker.data = '[' :: "\"rresp\",\"".data := rfl
  have hne : rrespMarker.data ≠ [] := by rw [hmarker]; exact List.cons_ne_nil _ _
  have hbody' : body.data = pre ++ rrespMarker.data ++ (F ++ '"' :: post) := by
    rw [hbody]; simp
  obtain ⟨f, hf⟩ : ∃ f, body.data.length = f + 1 := by
    refine ⟨body.data.length - 1, ?_⟩
    have : 0 < body.data.length := by rw [hbody', hmarker]; simp
    omega
  rw [hmarker] at hnone
  obtain ⟨rest, more, hseg⟩ := splitLoop_segment '[' "\"rresp\",\"".data F post (by decide) hnone f
  refine ⟨rest, more.map String.mk, ?_⟩
  unfold Split
  rw [hf, hbody', splitLoop_first _ _ _ hne f (by rw [← hbody']; exact hfirst)]
  rw [hmarker, hseg]
  simp

theorem split_quote (F rest : List Char) (hF : '"' ∉ F) :
    ∃ more, Split (String.mk (F ++ '"' :: rest)) "\"" = String.mk F :: more := by
  have hq : ("\"" : String).data = ['"'] := rfl
  have hfirst : ∀ p < F.length, ['"'].isPrefixOf ((F ++ ['"'] ++ rest).drop p) = false := by
    intro p hp
    have hlt : p < (F ++ (['"'] ++ rest)).length := by simp; omega
    rw [List.append_assoc, List.drop_eq_getElem_cons hlt]
    simp only [List.isPrefixOf, Bool.and_true, beq_eq_false_iff_ne, ne_eq]
    intro h
    apply hF
    rw [h, List.getElem_append_left hp]
    exact List.getElem_mem _
  refine ⟨(splitLoop ['"'] (F.length + rest.length) rest).map String.mk, ?_⟩
  unfold Split
  have hdata : (String.mk (F ++ '"' :: rest)).data = F ++ ['"'] ++ rest := by simp
  rw [hdata, hq]
  have hlen' : (F ++ ['"'] ++ rest).length = (F.length + rest.length) + 1 := by simp; omega
  rw [hlen', splitLoop_first ['"'] F rest (List.cons_ne_nil _ _) _ hfirst]
  simp

/-! ### `Recaptcha3` -/

/-- C9 (as amended): the anchor response is 200 OK, the leftmost match of the
token pattern in its HTML has the value `T` (non-empty, without `"`), the query of
its effective URL has the first values `V`, `K`, `C` for `v`, `k`, `co`, and the
reload body has its first marker `["rresp","` followed by `F` and a `"`, where `F`
has no `"` and no further marker begins inside `F`.  Then `Recaptcha3` makes two
calls, the GET of the anchor and the POST of
`v=V&reason=q&c=T&k=K&co=C&hl=en&size=invisible` (`visible` when `invisible` is
false), and returns `(F, nil)`. -/
theorem recaptcha3_extracts_token (s : Solver) (env : Env) (invisible : Bool)
    (ua anchor reload : String) (w : World) (r1 r2 : Response) (T V K C F : String)
    (pre post pre2 post2 : List Char)
    (hvalid : env.validURL anchor = true)
    (hrep1 : env.reply w.sent = .resp r1) (h200 : r1.StatusCode = 200)
    (hhtml : r1.Body.data = pre ++ tokenPrefix ++ T.data ++ '"' :: post)
    (hleft : ∀ p < pre.length, matchTokenAt (r1.Body.data.drop p) = none)
    (hTne : T.data ≠ []) (hTq : '"' ∉ T.data)
    (hv : (values r1.Query "v").head? = some V)
    (hk : (values r1.Query "k").head? = some K)
    (hco : (values r1.Query "co").head? = some C)
    (hrep2 : env.reply (w.sent + 1) = .resp r2)
    (hbody : r2.Body.data = pre2 ++ rrespMarker.data ++ F.data ++ '"' :: post2)
    (hfirst : ∀ p < pre2.length, rrespMarker.data.isPrefixOf (r2.Body.data.drop p) = false)
    (hFq : '"' ∉ F.data)
    (hnone : ∀ p < F.data.length,
      rrespMarker.data.isPrefixOf ((F.data ++ '"' :: post2).drop p) = false) :
    Recaptcha3 s env invisible ua anchor reload w =
      (.ret F none,
        { clock := w.clock, sent := w.sent + 2,
          trace := w.trace ++
            [Event.doReq "GET" anchor [("User-Agent", ua)],
             Event.post reload "application/x-www-form-urlencoded"
               (.text ("v=" ++ V ++ "&reason=q&c=" ++ T ++ "&k=" ++ K ++ "&co=" ++ C
                 ++ "&hl=en&size=" ++ (if invisible then "invisible" else "visible")))] }) := by
  have hfind : FindStringSubmatch r1.Body.data
      = [String.mk (tokenPrefix ++ T.data ++ ['"']), T] := by
    have := findStringSubmatch_leftmost T.data post hTne hTq pre
      (by rw [← hhtml]; exact hleft)
    rw [hhtml]
    exact this
  have hhead : ∀ (l : List String) (x : String), l.head? = some x → ∃ xs, l = x :: xs := by
    intro l x h
    cases l with
    | nil => simp at h
    | cons y ys =>
      simp only [List.head?_cons, Option.some.injEq] at h
      exact ⟨ys, by rw [h]⟩
  obtain ⟨vs, hv'⟩ := hhead _ _ hv
  obtain ⟨ks, hk'⟩ := hhead _ _ hk
  obtain ⟨cs, hco'⟩ := hhead _ _ hco
  obtain ⟨rest, more, hsplit⟩ := split_marker r2.Body pre2 F.data post2 hbody hfirst hnone
  obtain ⟨more2, hsplit2⟩ := split_quote F.data rest hFq
  have hsent : (w.send (Event.doReq "GET" anchor [("User-Agent", ua)])).sent = w.sent + 1 := rfl
  unfold Recaptcha3
  simp only [hvalid, hrep1, h200, hfind, hv', hk', hco', hsent, hrep2, hsplit, hsplit2]
  simp [World.send]

theorem recaptcha3_extracts_token_witness :
    Recaptcha3 ⟨"key", 0.01⟩
        (handshakeEnv anchorHTML [("v", ["V1"]), ("k", ["K1"]), ("co", ["C1"])]
          "prefix\n[\"rresp\",\"FINALTOK\",null,120]")
        true "UA" "https://anchor" "https://reload" World.init =
      (.ret "FINALTOK" none,
        { clock := World.init.clock, sent := World.init.sent + 2,
          trace := World.init.trace ++
            [Event.doReq "GET" "https://anchor" [("User-Agent", "UA")],
             Event.post "https://reload" "application/x-www-form-urlencoded"
               (.text ("v=" ++ "V1" ++ "&reason=q&c=" ++ "ANCHORTOK" ++ "&k=" ++ "K1" ++ "&co="
                 ++ "C1" ++ "&hl=en&size=" ++ (if true then "invisible" else "visible")))] }) ∧
    "v=" ++ "V1" ++ "&reason=q&c=" ++ "ANCHORTOK" ++ "&k=" ++ "K1" ++ "&co=" ++ "C1"
        ++ "&hl=en&size=" ++ (if true then "invisible" else "visible")
      = "v=V1&reason=q&c=ANCHORTOK&k=K1&co=C1&hl=en&size=invisible" :=
  ⟨recaptcha3_extracts_token ⟨"key", 0.01⟩
    (handshakeEnv anchorHTML [("v", ["V1"]), ("k", ["K1"]), ("co", ["C1"])]
      "prefix\n[\"rresp\",\"FINALTOK\",null,120]")
    true "UA" "https://anchor" "https://reload" World.init
    { StatusCode := 200, Body := anchorHTML, JSON := none, URL := "",
      Query := [("v", ["V1"]), ("k", ["K1"]), ("co", ["C1"])] }
    { StatusCode := 200, Body := "prefix\n[\"rresp\",\"FINALTOK\",null,120]", JSON := none,
      URL := "", Query := [] }
    "ANCHORTOK" "V1" "K1" "C1" "FINALTOK"
    "<input ".data ">".data "prefix\n".data ",null,120]".data
    rfl rfl rfl (by decide) (by decide) (by decide) (by decide)
    (by decide) (by decide) (by decide) rfl (by decide) (by decide) (by decide) (by decide),
   by decide⟩

/-- Concrete failing input of C9: the reload body is `["rresp","AB["rresp","CD"]`.
The text between the first marker and the next `"` is `AB[`, but a second marker
begins at that `[`, and `Recaptcha3` returns `AB`. -/
theorem recaptcha3_second_marker_cuts_token :
    ("[\"rresp\",\"AB[\"rresp\",\"CD\"]" : String).data
        = [] ++ rrespMarker.data ++ "AB[".data ++ '"' :: "rresp\",\"CD\"]".data ∧
    Index rrespMarker.data ("[\"rresp\",\"AB[\"rresp\",\"CD\"]" : String).data = some 0 ∧
    '"' ∉ "AB[".data ∧
    (Recaptcha3 ⟨"key", 0.01⟩
        (handshakeEnv anchorHTML [("v", ["V1"]), ("k", ["K1"]), ("co", ["C1"])]
          "[\"rresp\",\"AB[\"rresp\",\"CD\"]")
        true "UA" "https://anchor" "https://reload" World.init).1 = .ret "AB" none ∧
    (Recaptcha3 ⟨"key", 0.01⟩
        (handshakeEnv anchorHTML [("v", ["V1"]), ("k", ["K1"]), ("co", ["C1"])]
          "[\"rresp\",\"AB[\"rresp\",\"CD\"]")
        true "UA" "https://anchor" "https://reload" World.init).1 ≠ .ret "AB[" none := by
  refine ⟨by decide, by decide, by decide, by decide, by decide⟩

/-- C10: what the code does when a required piece is absent.  With the token
found but `v` (or `k`, or `co`) missing from the query, the expression
`uv["v"][0]` indexes an empty slice: `Recaptcha3` panics after the GET of the
anchor, before any POST.  With the three present and a reload body without the
marker, `strings.Split(...)[1]` is out of range: it panics after the POST.  No
error is returned in either case. -/
theorem recaptcha3_missing_piece_panics :
    Recaptcha3 ⟨"key", 0.01⟩
        (handshakeEnv anchorHTML [("k", ["K1"]), ("co", ["C1"])] "") true "UA"
        "https://anchor" "https://reload" World.init =
      (.panic indexPanic,
        { clock := 0, sent := 1,
          trace := [Event.doReq "GET" "https://anchor" [("User-Agent", "UA")]] }) ∧
    Recaptcha3 ⟨"key", 0.01⟩
        (handshakeEnv anchorHTML [("v", ["V1"]), ("co", ["C1"])] "") true "UA"
        "https://anchor" "https://reload" World.init =
      (.panic indexPanic,
        { clock := 0, sent := 1,
          trace := [Event.doReq "GET" "https://anchor" [("User-Agent", "UA")]] }) ∧
    Recaptcha3 ⟨"key", 0.01⟩
        (handshakeEnv anchorHTML [("v", ["V1"]), ("k", ["K1"])] "") true "UA"
        "https://anchor" "https://reload" World.init =
      (.panic indexPanic,
        { clock := 0, sent := 1,
          trace := [Event.doReq "GET" "https://anchor" [("User-Agent", "UA")]] }) ∧
    Recaptcha3 ⟨"key", 0.01⟩
        (handshakeEnv anchorHTML [("v", ["V1"]), ("k", ["K1"]), ("co", ["C1"])]
          "\x7b\"error\":\"bad token\"\x7d") true "UA"
        "https://anchor" "https://reload" World.init =
      (.panic indexPanic,
        { clock := 0, sent := 2,
          trace := [Event.doReq "GET" "https://anchor" [("User-Agent", "UA")],
            Event.post "https://reload" "application/x-www-form-urlencoded"
              (.text "v=V1&reason=q&c=ANCHORTOK&k=K1&co=C1&hl=en&size=invisible")] }) := by
  refine ⟨rfl, rfl, rfl, rfl⟩

end CSolver
